import Mathlib

/-!
# The demo loop controller of `demo/earthball8.c`

A shallow embedding of the lite-C script `earthball8.c`: its globals, the two
callbacks `Plop` and `Kick`, the startup part of `main` and the body of the
`while (1)` frame loop.

The script is hosted by a game engine.  Everything the script calls but does not
define (`vec_rotate`, `vec_accelerate`, `ent_playsound`, `pXent_addvelcentral`, ...)
is engine code outside the repository:

* every call of an engine function and every write to an engine variable or
  object is recorded, in program order, in the `trace` of the state (`Call`);
* the two vector functions whose results flow back into the script,
  `vec_rotate` and `vec_accelerate`, are a parameter (`Engine`);
* `a8Engine` is one concrete engine, written from the spec's description of the two
  functions and used where a statement needs numbers.

`var` values (22.10 fixed point in the engine) are idealised as rationals, and
the engine functions do not depend on the duration of a frame.
-/

namespace Earthball

/-! ## Data model -/

/-- A `VECTOR`: three consecutive `var`s.  An `ANGLE` (pan, tilt, roll) has the
same layout, and the script hands both to the same `vec_` functions. -/
structure VECTOR where
  x : ℚ
  y : ℚ
  z : ℚ
deriving DecidableEq

/-- The null vector, the initial value of every global `VECTOR` of the script. -/
def nullvector : VECTOR := ⟨0, 0, 0⟩

/-- The part of the engine's `camera` view the script touches: position
`x, y, z` and orientation `pan, tilt, roll`. -/
structure VIEW where
  x : ℚ
  y : ℚ
  z : ℚ
  pan : ℚ
  tilt : ℚ
  roll : ℚ
deriving DecidableEq

/-- What a `vec_` function sees through the pointer `camera.x`: the position. -/
def VIEW.at_x (c : VIEW) : VECTOR := ⟨c.x, c.y, c.z⟩

/-- What a `vec_` function sees through the pointer `camera.pan`: the three
angles pan, tilt, roll (line 129 adds the three components of `vMove`, the pan,
tilt and roll deltas of lines 125-127, through this same pointer). -/
def VIEW.at_pan (c : VIEW) : VECTOR := ⟨c.pan, c.tilt, c.roll⟩

/-- Store a vector through the pointer `camera.x`. -/
def VIEW.set_at_x (c : VIEW) (v : VECTOR) : VIEW := { c with x := v.x, y := v.y, z := v.z }

/-- Store a vector through the pointer `camera.pan`. -/
def VIEW.set_at_pan (c : VIEW) (v : VECTOR) : VIEW :=
  { c with pan := v.x, tilt := v.y, roll := v.z }

/-- Object flags used by the script. -/
inductive Flag
  | SHOW
  | SHADOW
  | SKY
  | CUBE
deriving DecidableEq

/-- The two script functions that are handed to the engine as callbacks. -/
inductive Func
  | Plop
  | Kick
deriving DecidableEq

/-- Global vectors of the script and the two vectors inside `camera`, as pointer
targets of the `vec_` functions. -/
inductive Global
  | vSpeed
  | vAngularSpeed
  | vForce
  | vMove
  | camera_x
  | camera_pan
deriving DecidableEq

/-- A pointer argument of a `vec_` call: a global, or the local `vKick` of `Kick`. -/
inductive Loc
  | glob (g : Global)
  | vKick
deriving DecidableEq

/-- An entity pointer: `none` is `NULL`, `some n` the n-th entity the engine created. -/
abbrev ENTITY := Option ℕ

/-- Engine objects carrying flags. -/
inductive Obj
  | pSplash
  | tHelp
  | ent (e : ENTITY)
deriving DecidableEq

/-- One engine-visible action of the script: a call of an engine function, or a
write to an engine variable or to a field of an engine object.  Symbolic engine
constants (`PH_RIGID`, `mat_metal`, ...) and assets are kept by name. -/
inductive Call
  | assign (var : String) (value : ℚ)
  | physX_open
  | set (o : Obj) (f : Flag)
  | wait (frames : ℚ)
  | level_load (file : String)
  | ent_createlayer (file : String) (flags : List Flag) (layer : ℚ) (result : ℕ)
  | ent_assign (e : ENTITY) (field : String) (value : ℚ)
  | ent_create (file : String) (pos : VECTOR) (action : Option Func) (result : ℕ)
  | ent_material (e : ENTITY) (material : String)
  | pXent_settype (e : ENTITY) (body : String) (hull : String)
  | pXent_setelasticity (e : ENTITY) (value : ℚ)
  | pXent_setdamping (e : ENTITY) (linear : ℚ) (angular : ℚ)
  | pXent_addvelcentral (e : ENTITY) (v : VECTOR)
  | pXent_setcollisionflag (e : ENTITY) (e2 : ENTITY) (flag : String)
  | ent_event (e : ENTITY) (f : Func)
  | pan_remove (o : Obj)
  | on_space (f : Func)
  | ent_playsound (e : ENTITY) (sound : String) (volume : ℚ)
  | vec_rotate (dir : Loc) (ang : Loc)
  | vec_accelerate (dist : Loc) (speed : Loc) (accel : Loc) (friction : ℚ)
  | vec_add (dst : Loc) (src : Loc)
deriving DecidableEq

/-- The engine functions whose results flow back into the script.
`vec_rotate dir ang` is the new content of `dir`; `vec_accelerate speed accel
friction` is the pair (new content of `dist`, new content of `speed`). -/
structure Engine where
  vec_rotate : VECTOR → VECTOR → VECTOR
  vec_accelerate : VECTOR → VECTOR → ℚ → VECTOR × VECTOR

/-- Modelled from the spec: the engine's `vec_add(dst, src)`, which is outside the
repository; the spec says the delta is "added" to the camera orientation and
position.  Result: the new content of `dst`. -/
def vec_add (dst src : VECTOR) : VECTOR := ⟨dst.x + src.x, dst.y + src.y, dst.z + src.z⟩

/-- The state the script works on: the camera, the four global vectors (line 25),
the global `eBlob` (line 21), the callbacks the script has handed to the engine,
the number of entities created so far and the trace of engine-visible actions. -/
structure State where
  camera : VIEW
  vSpeed : VECTOR
  vAngularSpeed : VECTOR
  vForce : VECTOR
  vMove : VECTOR
  eBlob : ENTITY
  on_space : Option Func
  events : List (ℕ × Func)
  entities : ℕ
  trace : List Call

/-- The state at program start: globals are zero-initialised, nothing is bound,
nothing has been created; the camera is whatever the engine starts with. -/
def State.start (camera : VIEW) : State :=
  { camera := camera, vSpeed := nullvector, vAngularSpeed := nullvector,
    vForce := nullvector, vMove := nullvector, eBlob := none, on_space := none,
    events := [], entities := 0, trace := [] }

/-- Append one action to the trace. -/
def State.emit (s : State) (c : Call) : State := { s with trace := s.trace ++ [c] }

/-- Read a vector through a pointer to a global. -/
def State.read (s : State) : Global → VECTOR
  | .vSpeed => s.vSpeed
  | .vAngularSpeed => s.vAngularSpeed
  | .vForce => s.vForce
  | .vMove => s.vMove
  | .camera_x => s.camera.at_x
  | .camera_pan => s.camera.at_pan

/-- Write a vector through a pointer to a global. -/
def State.write (s : State) (g : Global) (v : VECTOR) : State :=
  match g with
  | .vSpeed => { s with vSpeed := v }
  | .vAngularSpeed => { s with vAngularSpeed := v }
  | .vForce => { s with vForce := v }
  | .vMove => { s with vMove := v }
  | .camera_x => { s with camera := s.camera.set_at_x v }
  | .camera_pan => { s with camera := s.camera.set_at_pan v }

/-- The statement `vec_accelerate(dist, speed, accel, friction)` on globals. -/
def call_vec_accelerate (E : Engine) (dist speed accel : Global) (friction : ℚ)
    (s : State) : State :=
  let r := E.vec_accelerate (s.read speed) (s.read accel) friction
  ((s.write dist r.1).write speed r.2).emit
    (.vec_accelerate (.glob dist) (.glob speed) (.glob accel) friction)

/-- The statement `vec_add(dst, src)` on globals. -/
def call_vec_add (dst src : Global) (s : State) : State :=
  (s.write dst (vec_add (s.read dst) (s.read src))).emit (.vec_add (.glob dst) (.glob src))

/-- The statement `vec_rotate(dir, ang)` on globals. -/
def call_vec_rotate (E : Engine) (dir ang : Global) (s : State) : State :=
  (s.write dir (E.vec_rotate (s.read dir) (s.read ang))).emit
    (.vec_rotate (.glob dir) (.glob ang))

/-! ## The script -/

/-- The sound `sPong` of line 23, kept by its file name. -/
def sPong : String := "tap.wav"

/-- Lines 29-33: `Plop`. -/
def Plop (s : State) : State :=
  s.emit (.ent_playsound s.eBlob sPong 100)

/-- Lines 36-47: `Kick`.  `vKick` is a local; `camera.pan` is passed as pointer. -/
def Kick (E : Engine) (s : State) : State :=
  let vKick : VECTOR := ⟨150, 0, 75⟩
  let vKick := E.vec_rotate vKick (s.read .camera_pan)
  let s := s.emit (.vec_rotate .vKick (.glob .camera_pan))
  let s := s.emit (.pXent_addvelcentral s.eBlob vKick)
  Plop s

/-- Lines 57-115: `main` from program start up to the frame loop. -/
def main_startup (s : State) : State :=
  let s := s.emit (.assign "video_mode" 7)
  let s := s.emit (.assign "video_aspect" (4 / 3))
  let s := s.emit (.assign "shadow_stencil" 3)
  let s := s.emit (.assign "d3d_antialias" 4)
  let s := s.emit (.assign "sound_vol" 100)
  let s := s.emit .physX_open
  let s := s.emit (.set .pSplash .SHOW)
  let s := s.emit (.wait 3)
  let s := s.emit (.level_load "small.hmp")
  let sky : ENTITY := some s.entities
  let s := { s with entities := s.entities + 1 }.emit
    (.ent_createlayer "skycube+6.dds" [.SKY, .CUBE, .SHOW] 0 s.entities)
  let s := s.emit (.ent_assign sky "z" 30)
  let s := { s with camera := { s.camera with z := 30 } }.emit (.assign "camera.z" 30)
  let s := { s with eBlob := some s.entities, entities := s.entities + 1 }.emit
    (.ent_create "blob.mdl" ⟨0, 0, 100⟩ none s.entities)
  let s := s.emit (.set (.ent s.eBlob) .SHADOW)
  let s := s.emit (.ent_material s.eBlob "mat_metal")
  let s := s.emit (.pXent_settype s.eBlob "PH_RIGID" "PH_CAPSULE")
  let s := s.emit (.pXent_setelasticity s.eBlob 80)
  let s := s.emit (.pXent_setdamping s.eBlob 20 5)
  let s := s.emit (.pXent_addvelcentral s.eBlob ⟨10, 20, 0⟩)
  let s := s.emit (.pXent_setcollisionflag s.eBlob none "NX_NOTIFY_ON_START_TOUCH")
  let s := { s with events := match s.eBlob with
                              | some e => (e, Func.Plop) :: s.events
                              | none => s.events }.emit (.ent_event s.eBlob .Plop)
  let s := s.emit (.pan_remove .pSplash)
  let s := s.emit (.set .tHelp .SHOW)
  let s := { s with on_space := some .Kick }.emit (.on_space .Kick)
  Plop s

/-- The input readings of one frame that the loop body uses. -/
structure Inputs where
  key_force_x : ℚ
  key_force_y : ℚ
  mouse_force_x : ℚ
  mouse_force_y : ℚ
  key_w : ℚ
  key_s : ℚ
  key_a : ℚ
  key_d : ℚ
  key_home : ℚ
  key_end : ℚ

/-- Lines 125-136: the body of the frame loop, up to the `wait(1)`. -/
def loop_update (E : Engine) (i : Inputs) (s : State) : State :=
  let s := { s with vForce := { s.vForce with x := -5 * (i.key_force_x + i.mouse_force_x) } }
  let s := { s with vForce := { s.vForce with y := 5 * (i.key_force_y + i.mouse_force_y) } }
  let s := { s with vForce := { s.vForce with z := 0 } }
  let s := call_vec_accelerate E .vMove .vAngularSpeed .vForce 0.8 s
  let s := call_vec_add .camera_pan .vMove s
  let s := { s with vForce := { s.vForce with x := 6 * (i.key_w - i.key_s) } }
  let s := { s with vForce := { s.vForce with y := 6 * (i.key_a - i.key_d) } }
  let s := { s with vForce := { s.vForce with z := 6 * (i.key_home - i.key_end) } }
  let s := call_vec_accelerate E .vMove .vSpeed .vForce 0.5 s
  let s := call_vec_rotate E .vMove .camera_pan s
  call_vec_add .camera_x .vMove s

/-- Lines 119-138: one iteration of `while (1)`, the `wait(1)` included. -/
def loop_body (E : Engine) (i : Inputs) (s : State) : State :=
  (loop_update E i s).emit (.wait 1)

/-! ## The engine's side of a frame -/

/-- A trigger the engine can fire while the script waits. -/
inductive Event
  | key_space
  | collision_start (e : ℕ)
deriving DecidableEq

/-- Run a script function the engine holds as callback. -/
def call (E : Engine) : Func → State → State
  | .Plop, s => Plop s
  | .Kick, s => Kick E s

/-- Modelled from the spec: the engine's event registry, which is outside the
repository: "associates a trigger (key identifier or collision-start on an
entity) with a zero-argument callback"; a trigger without callback does nothing. -/
def dispatch (E : Engine) (ev : Event) (s : State) : State :=
  match ev with
  | .key_space =>
    match s.on_space with
    | some f => call E f s
    | none => s
  | .collision_start e =>
    match s.events.lookup e with
    | some f => call E f s
    | none => s

/-- What one frame brings: the input readings during the loop body and the
triggers the engine fires during the `wait(1)` that ends it. -/
structure Frame where
  inputs : Inputs
  fired : List Event

/-- One frame: the loop body, then the callbacks of the fired triggers in order. -/
def frame (E : Engine) (f : Frame) (s : State) : State :=
  f.fired.foldl (fun t ev => dispatch E ev t) (loop_body E f.inputs s)

/-- The first `n` frames of the loop, frame `k` being `fr k`. -/
def frames (E : Engine) (fr : ℕ → Frame) : ℕ → State → State
  | 0, s => s
  | n + 1, s => frame E (fr n) (frames E fr n s)

/-! ## A concrete engine -/

/-- The cosine and the sine of `k` quarter turns, that is of `k * 90` degrees. -/
def quarter_cos_sin (k : ℤ) : ℚ × ℚ :=
  match (k % 4).toNat with
  | 0 => (1, 0)
  | 1 => (0, 1)
  | 2 => (-1, 0)
  | _ => (0, -1)

/-- Modelled from the spec: the engine's `vec_rotate(dir, ang)`, which is outside
the repository, as the spec describes the rotation of the kick: a "yaw-only
rotation about the camera pan angle", so a rotation about the vertical z axis by
`ang.x` that ignores tilt and roll.  The cosine and the sine of a rational number
of degrees are both rational only at whole quarter turns: the model is exact
there, and it takes any other pan down to the quarter turn below it.  A positive
pan turns counter-clockwise seen from above. -/
def rotate_yaw (dir ang : VECTOR) : VECTOR :=
  let cs := quarter_cos_sin ⌊ang.x / 90⌋
  ⟨dir.x * cs.1 - dir.y * cs.2, dir.x * cs.2 + dir.y * cs.1, dir.z⟩

/-- Modelled from the spec: the engine's accelerate-integrator `vec_accelerate`,
which is outside the repository: "exponential smoothing" that blends the force
into the persistent velocity "by a fixed per-call decay factor" (the new speed is
`factor * speed + (1 - factor) * force`, so the speed decays by `factor` per step
at zero force) and integrates that velocity over the frame: the delta of the
frame is the new speed.  Result: (delta, new speed). -/
def smooth (speed force : VECTOR) (factor : ℚ) : VECTOR × VECTOR :=
  let v : VECTOR := ⟨factor * speed.x + (1 - factor) * force.x,
                     factor * speed.y + (1 - factor) * force.y,
                     factor * speed.z + (1 - factor) * force.z⟩
  (v, v)

/-- The concrete engine: the spec's yaw-only rotation and the spec's smoothing law. -/
def a8Engine : Engine := { vec_rotate := rotate_yaw, vec_accelerate := smooth }


/-! ## Observations on traces and states -/

/-- The actions issued between state `s` and a later state `t`. -/
def issued (s t : State) : List Call := t.trace.drop s.trace.length

/-- The number of play-sound requests in a list of actions. -/
def sounds (t : List Call) : ℕ :=
  t.countP (fun c => match c with
    | .ent_playsound _ _ _ => true
    | _ => false)

/-- The central velocity changes in a list of actions: entity and vector of each
`pXent_addvelcentral`, in order. -/
def kicks (t : List Call) : List (ENTITY × VECTOR) :=
  t.filterMap (fun c => match c with
    | .pXent_addvelcentral e v => some (e, v)
    | _ => none)

/-- The frame counts of the `wait` calls in a list of actions, in order. -/
def waits (t : List Call) : List ℚ :=
  t.filterMap (fun c => match c with
    | .wait n => some n
    | _ => none)

/-- The entities created with `ent_create` in a list of actions: model file and
position of each, in order. -/
def created (t : List Call) : List (String × VECTOR) :=
  t.filterMap (fun c => match c with
    | .ent_create file pos _ _ => some (file, pos)
    | _ => none)

/-- The part of the state a callback cannot change: everything but the trace. -/
def State.data (s : State) :
    VIEW × VECTOR × VECTOR × VECTOR × VECTOR × ENTITY × Option Func × List (ℕ × Func) × ℕ :=
  (s.camera, s.vSpeed, s.vAngularSpeed, s.vForce, s.vMove, s.eBlob, s.on_space, s.events,
    s.entities)

/-- Whether a callback is bound to the trigger `ev` in state `s`. -/
def State.answers (s : State) : Event → Bool
  | .key_space => s.on_space.isSome
  | .collision_start e => (s.events.lookup e).isSome

/-- The number of triggers fired in the first `n` frames that have a callback in `s`. -/
def answered (s : State) (fr : ℕ → Frame) : ℕ → ℕ
  | 0 => 0
  | n + 1 => answered s fr n + (fr n).fired.countP s.answers

/-- Input readings that are all 0. -/
def Inputs.idle : Inputs :=
  { key_force_x := 0, key_force_y := 0, mouse_force_x := 0, mouse_force_y := 0,
    key_w := 0, key_s := 0, key_a := 0, key_d := 0, key_home := 0, key_end := 0 }

/-- The camera and the two persistent velocity vectors. -/
structure Motion where
  camera : VIEW
  vAngularSpeed : VECTOR
  vSpeed : VECTOR

/-- The camera and the persistent velocity vectors of a state. -/
def State.motion (s : State) : Motion :=
  { camera := s.camera, vAngularSpeed := s.vAngularSpeed, vSpeed := s.vSpeed }

/-- The reference step of the per-frame camera update, written from its
description: (1) angular force, (2) integrator with factor 0.8 on the angular
speed, delta added to the orientation, (3) linear force, (4) integrator with
factor 0.5 on the linear speed, delta rotated by the updated orientation and
added to the position. -/
def reference_step (E : Engine) (i : Inputs) (m : Motion) : Motion :=
  let angular_force : VECTOR :=
    ⟨-5 * (i.key_force_x + i.mouse_force_x), 5 * (i.key_force_y + i.mouse_force_y), 0⟩
  let angular := E.vec_accelerate m.vAngularSpeed angular_force 0.8
  let orientation := vec_add ⟨m.camera.pan, m.camera.tilt, m.camera.roll⟩ angular.1
  let linear_force : VECTOR :=
    ⟨6 * (i.key_w - i.key_s), 6 * (i.key_a - i.key_d), 6 * (i.key_home - i.key_end)⟩
  let linear := E.vec_accelerate m.vSpeed linear_force 0.5
  let position := vec_add ⟨m.camera.x, m.camera.y, m.camera.z⟩
    (E.vec_rotate linear.1 orientation)
  { camera := { x := position.x, y := position.y, z := position.z,
                pan := orientation.x, tilt := orientation.y, roll := orientation.z },
    vAngularSpeed := angular.2,
    vSpeed := linear.2 }

/-- The order of startup actions as the description of `main` lists them; the sky
is the first entity the engine creates, the blob the second. -/
def startup_order : List Call :=
  [ .set .pSplash .SHOW,
    .wait 3,
    .level_load "small.hmp",
    .ent_createlayer "skycube+6.dds" [.SKY, .CUBE, .SHOW] 0 0,
    .ent_create "blob.mdl" ⟨0, 0, 100⟩ none 1,
    .pXent_settype (some 1) "PH_RIGID" "PH_CAPSULE",
    .pXent_setelasticity (some 1) 80,
    .pXent_setdamping (some 1) 20 5,
    .pXent_addvelcentral (some 1) ⟨10, 20, 0⟩,
    .pXent_setcollisionflag (some 1) none "NX_NOTIFY_ON_START_TOUCH",
    .ent_event (some 1) .Plop,
    .pan_remove .pSplash,
    .set .tHelp .SHOW,
    .on_space .Kick ]

/-- The state in which `main` enters the loop, but with the camera already turning:
`vAngularSpeed` is (10, 0, 0). -/
def spinning : State :=
  { main_startup (State.start ⟨0, 0, 0, 0, 0, 0⟩) with vAngularSpeed := ⟨10, 0, 0⟩ }

/-- Frames without any input and without any trigger. -/
def idle_frames : ℕ → Frame := fun _ => { inputs := Inputs.idle, fired := [] }

/-- The state in which `main` enters the loop, but with the camera turning slowly:
`vAngularSpeed` is (1/2, 0, 0). -/
def turning : State :=
  { main_startup (State.start ⟨0, 0, 0, 0, 0, 0⟩) with vAngularSpeed := ⟨1 / 2, 0, 0⟩ }

/-! ## Basic facts -/

lemma Plop_trace (s : State) :
    (Plop s).trace = s.trace ++ [Call.ent_playsound s.eBlob sPong 100] := rfl

lemma Kick_trace (E : Engine) (s : State) :
    (Kick E s).trace = s.trace ++
      [Call.vec_rotate .vKick (.glob .camera_pan),
       Call.pXent_addvelcentral s.eBlob (E.vec_rotate ⟨150, 0, 75⟩ s.camera.at_pan),
       Call.ent_playsound s.eBlob sPong 100] := by
  simp [Kick, Plop, State.emit, State.read]

lemma loop_body_trace (E : Engine) (i : Inputs) (s : State) :
    (loop_body E i s).trace = s.trace ++
      [Call.vec_accelerate (.glob .vMove) (.glob .vAngularSpeed) (.glob .vForce) 0.8,
       Call.vec_add (.glob .camera_pan) (.glob .vMove),
       Call.vec_accelerate (.glob .vMove) (.glob .vSpeed) (.glob .vForce) 0.5,
       Call.vec_rotate (.glob .vMove) (.glob .camera_pan),
       Call.vec_add (.glob .camera_x) (.glob .vMove),
       Call.wait 1] := by
  simp [loop_body, loop_update, call_vec_accelerate, call_vec_add, call_vec_rotate,
    State.emit, State.write]

lemma issued_append (s t : State) (l : List Call) (h : t.trace = s.trace ++ l) :
    issued s t = l := by
  simp [issued, h]

lemma sounds_append (a b : List Call) : sounds (a ++ b) = sounds a + sounds b := by
  simp [sounds, List.countP_append]

lemma Plop_data (s : State) : (Plop s).data = s.data := rfl

lemma Kick_data (E : Engine) (s : State) : (Kick E s).data = s.data := rfl

lemma call_data (E : Engine) (f : Func) (s : State) : (call E f s).data = s.data := by
  cases f <;> rfl

lemma dispatch_data (E : Engine) (ev : Event) (s : State) : (dispatch E ev s).data = s.data := by
  cases ev with
  | key_space =>
    simp only [dispatch]
    cases s.on_space with
    | none => rfl
    | some f => exact call_data E f s
  | collision_start e =>
    simp only [dispatch]
    cases s.events.lookup e with
    | none => rfl
    | some f => exact call_data E f s

lemma fired_data (E : Engine) (evs : List Event) (s : State) :
    (evs.foldl (fun t ev => dispatch E ev t) s).data = s.data := by
  induction evs generalizing s with
  | nil => rfl
  | cons ev evs ih => rw [List.foldl_cons, ih, dispatch_data]


/-! ## The startup sequence -/

/-- The full trace of `main` from program start to the frame loop. -/
lemma main_startup_trace (cam : VIEW) :
    (main_startup (State.start cam)).trace =
      [ .assign "video_mode" 7, .assign "video_aspect" (4 / 3), .assign "shadow_stencil" 3,
        .assign "d3d_antialias" 4, .assign "sound_vol" 100, .physX_open,
        .set .pSplash .SHOW, .wait 3, .level_load "small.hmp",
        .ent_createlayer "skycube+6.dds" [.SKY, .CUBE, .SHOW] 0 0,
        .ent_assign (some 0) "z" 30, .assign "camera.z" 30,
        .ent_create "blob.mdl" ⟨0, 0, 100⟩ none 1,
        .set (.ent (some 1)) .SHADOW, .ent_material (some 1) "mat_metal",
        .pXent_settype (some 1) "PH_RIGID" "PH_CAPSULE",
        .pXent_setelasticity (some 1) 80, .pXent_setdamping (some 1) 20 5,
        .pXent_addvelcentral (some 1) ⟨10, 20, 0⟩,
        .pXent_setcollisionflag (some 1) none "NX_NOTIFY_ON_START_TOUCH",
        .ent_event (some 1) .Plop, .pan_remove .pSplash, .set .tHelp .SHOW,
        .on_space .Kick, .ent_playsound (some 1) "tap.wav" 100 ] := by
  simp [main_startup, Plop, State.emit, State.start, sPong]

/-- Claim C7: the actions `main` issues before the frame loop contain, in this
order: splash shown, `wait(3)`, terrain `small.hmp` loaded, sky created, blob
created at (0,0,100), body set to rigid capsule, elasticity 80, damping 20 and 5,
velocity (10,20,0) added, collision-start notification set, `Plop` stored as the
blob's event, splash removed, help text shown, `Kick` bound to the space key.
The only wait is the one of 3 frames and the blob is the only `ent_create`. -/
theorem main_startup_order (cam : VIEW) :
    startup_order.Sublist (main_startup (State.start cam)).trace
    ∧ waits (main_startup (State.start cam)).trace = [3]
    ∧ created (main_startup (State.start cam)).trace = [("blob.mdl", ⟨0, 0, 100⟩)]
    ∧ (main_startup (State.start cam)).eBlob = some 1 := by
  rw [main_startup_trace]
  refine ⟨?_, ?_, ?_, rfl⟩
  · decide
  · decide
  · decide

/-! ## The callbacks -/

lemma data_fields {s t : State} (h : t.data = s.data) :
    t.camera = s.camera ∧ t.vSpeed = s.vSpeed ∧ t.vAngularSpeed = s.vAngularSpeed ∧
      t.vForce = s.vForce ∧ t.vMove = s.vMove ∧ t.eBlob = s.eBlob ∧
      t.on_space = s.on_space ∧ t.events = s.events ∧ t.entities = s.entities := by
  simpa [State.data] using h

lemma iterate_Plop (s : State) (n : ℕ) :
    (Plop^[n] s).data = s.data ∧
      (Plop^[n] s).trace = s.trace ++ List.replicate n (Call.ent_playsound s.eBlob sPong 100) := by
  induction n with
  | zero => simp
  | succ n ih =>
    rw [Function.iterate_succ_apply']
    refine ⟨by rw [Plop_data, ih.1], ?_⟩
    rw [Plop_trace, ih.2, (data_fields ih.1).2.2.2.2.2.1, List.append_assoc,
      List.replicate_succ']

/-- Claim C4: `Plop` does not debounce.  Every invocation issues exactly one
play-sound request, `ent_playsound(eBlob, sPong, 100)`, whatever was invoked
before; two invocations issue two requests and `n` invocations issue `n`. -/
theorem Plop_no_debounce (s : State) :
    issued s (Plop s) = [Call.ent_playsound s.eBlob "tap.wav" 100]
    ∧ issued s (Plop (Plop s)) =
        [Call.ent_playsound s.eBlob "tap.wav" 100, Call.ent_playsound s.eBlob "tap.wav" 100]
    ∧ ∀ n : ℕ, issued s (Plop^[n] s) = List.replicate n (Call.ent_playsound s.eBlob "tap.wav" 100)
        ∧ sounds (issued s (Plop^[n] s)) = n := by
  refine ⟨issued_append _ _ _ (Plop_trace s), ?_, ?_⟩
  · exact issued_append _ _ _ (by rw [Plop_trace, Plop_trace, List.append_assoc]; rfl)
  · intro n
    have h := issued_append _ _ _ (iterate_Plop s n).2
    refine ⟨h, ?_⟩
    rw [h]
    simp [sounds, List.countP_replicate]

/-- Claim C10: the callbacks `Plop` and `Kick` leave the camera position, the
camera orientation and the four global vectors `vSpeed`, `vAngularSpeed`,
`vForce`, `vMove` as they were, also when the engine runs them for a trigger.
What `Kick` issues depends on the state only through the camera orientation,
which it reads, and `eBlob`. -/
theorem callbacks_keep_motion (E : Engine) (s : State) :
    ((Plop s).camera = s.camera ∧ (Plop s).vSpeed = s.vSpeed
      ∧ (Plop s).vAngularSpeed = s.vAngularSpeed ∧ (Plop s).vForce = s.vForce
      ∧ (Plop s).vMove = s.vMove)
    ∧ ((Kick E s).camera = s.camera ∧ (Kick E s).vSpeed = s.vSpeed
      ∧ (Kick E s).vAngularSpeed = s.vAngularSpeed ∧ (Kick E s).vForce = s.vForce
      ∧ (Kick E s).vMove = s.vMove)
    ∧ (∀ ev : Event, (dispatch E ev s).camera = s.camera ∧ (dispatch E ev s).vSpeed = s.vSpeed
      ∧ (dispatch E ev s).vAngularSpeed = s.vAngularSpeed ∧ (dispatch E ev s).vForce = s.vForce
      ∧ (dispatch E ev s).vMove = s.vMove)
    ∧ issued s (Kick E s) =
        [Call.vec_rotate .vKick (.glob .camera_pan),
         Call.pXent_addvelcentral s.eBlob
           (E.vec_rotate ⟨150, 0, 75⟩ ⟨s.camera.pan, s.camera.tilt, s.camera.roll⟩),
         Call.ent_playsound s.eBlob "tap.wav" 100] := by
  refine ⟨⟨rfl, rfl, rfl, rfl, rfl⟩, ⟨rfl, rfl, rfl, rfl, rfl⟩, ?_, ?_⟩
  · intro ev
    have h := data_fields (dispatch_data E ev s)
    exact ⟨h.1, h.2.1, h.2.2.1, h.2.2.2.1, h.2.2.2.2.1⟩
  · exact issued_append _ _ _ (Kick_trace E s)

/-! ## The frame loop -/

/-- Claim C5: one iteration of the loop body is the reference step: angular force,
integrator with factor 0.8 on `vAngularSpeed` and its delta added to the camera
orientation, linear force, integrator with factor 0.5 on `vSpeed` and its delta
rotated by the updated orientation and added to the camera position.  The
iteration calls the integrator once on `vAngularSpeed`, then once on `vSpeed`. -/
theorem loop_body_is_reference_step (E : Engine) (i : Inputs) (s : State) :
    (loop_body E i s).motion = reference_step E i s.motion
    ∧ issued s (loop_body E i s) =
        [Call.vec_accelerate (.glob .vMove) (.glob .vAngularSpeed) (.glob .vForce) 0.8,
         Call.vec_add (.glob .camera_pan) (.glob .vMove),
         Call.vec_accelerate (.glob .vMove) (.glob .vSpeed) (.glob .vForce) 0.5,
         Call.vec_rotate (.glob .vMove) (.glob .camera_pan),
         Call.vec_add (.glob .camera_x) (.glob .vMove),
         Call.wait 1] :=
  ⟨rfl, issued_append _ _ _ (loop_body_trace E i s)⟩

lemma frame_bindings (E : Engine) (f : Frame) (s : State) :
    (frame E f s).eBlob = s.eBlob ∧ (frame E f s).on_space = s.on_space
      ∧ (frame E f s).events = s.events := by
  have h := data_fields (fired_data E f.fired (loop_body E f.inputs s))
  exact ⟨h.2.2.2.2.2.1, h.2.2.2.2.2.2.1, h.2.2.2.2.2.2.2.1⟩

lemma frames_bindings (E : Engine) (fr : ℕ → Frame) (n : ℕ) (s : State) :
    (frames E fr n s).eBlob = s.eBlob ∧ (frames E fr n s).on_space = s.on_space
      ∧ (frames E fr n s).events = s.events := by
  induction n with
  | zero => exact ⟨rfl, rfl, rfl⟩
  | succ n ih =>
    have h := frame_bindings E (fr n) (frames E fr n s)
    exact ⟨h.1.trans ih.1, h.2.1.trans ih.2.1, h.2.2.trans ih.2.2⟩

lemma answers_congr {s t : State} (h1 : t.on_space = s.on_space) (h2 : t.events = s.events) :
    t.answers = s.answers := by
  funext ev
  cases ev <;> simp [State.answers, h1, h2]

lemma sounds_call (E : Engine) (f : Func) (s : State) :
    sounds (call E f s).trace = sounds s.trace + 1 := by
  cases f
  · rw [call, Plop_trace, sounds_append]; rfl
  · rw [call, Kick_trace, sounds_append]; rfl

lemma sounds_dispatch (E : Engine) (ev : Event) (s : State) :
    sounds (dispatch E ev s).trace = sounds s.trace + (if s.answers ev then 1 else 0) := by
  cases ev with
  | key_space =>
    cases h : s.on_space with
    | none => simp [dispatch, State.answers, h]
    | some f => simpa [dispatch, State.answers, h] using sounds_call E f s
  | collision_start e =>
    cases h : s.events.lookup e with
    | none => simp [dispatch, State.answers, h]
    | some f => simpa [dispatch, State.answers, h] using sounds_call E f s

lemma sounds_fired (E : Engine) (evs : List Event) (s : State) :
    sounds (evs.foldl (fun t ev => dispatch E ev t) s).trace
      = sounds s.trace + evs.countP s.answers := by
  induction evs generalizing s with
  | nil => simp
  | cons ev evs ih =>
    have hd := data_fields (dispatch_data E ev s)
    rw [List.foldl_cons, ih, sounds_dispatch, answers_congr hd.2.2.2.2.2.2.1 hd.2.2.2.2.2.2.2.1,
      List.countP_cons]
    omega

lemma sounds_loop_body (E : Engine) (i : Inputs) (s : State) :
    sounds (loop_body E i s).trace = sounds s.trace := by
  rw [loop_body_trace, sounds_append]
  rfl

lemma sounds_frames (E : Engine) (fr : ℕ → Frame) (n : ℕ) (s : State) :
    sounds (frames E fr n s).trace = sounds s.trace + answered s fr n := by
  induction n with
  | zero => rfl
  | succ n ih =>
    have hb := frames_bindings E fr n s
    have ha : (loop_body E (fr n).inputs (frames E fr n s)).answers = s.answers :=
      answers_congr hb.2.1 hb.2.2
    simp only [frames, frame, answered]
    rw [sounds_fired, sounds_loop_body, ih, ha]
    omega

/-- The startup of `main` does issue a play-sound request: line 115 calls `Plop`
before the loop is entered (against claim C6). -/
theorem main_startup_plays_sound :
    sounds (main_startup (State.start ⟨0, 0, 0, 0, 0, 0⟩)).trace = 1
    ∧ (main_startup (State.start ⟨0, 0, 0, 0, 0, 0⟩)).trace.getLast?
        = some (Call.ent_playsound (some 1) "tap.wav" 100) := by
  rw [main_startup_trace]
  exact ⟨by decide, by decide⟩

/-- Claim C6, amended: play-sound requests have three sources.  The startup of
`main` removes the splash panel, shows the help text, binds `Kick` to the space
key and then calls `Plop` itself: exactly one request before the loop.  After it,
`Kick` answers the space key and `Plop` the collision start of the blob, each
with exactly one request; the loop body issues none.  So after `n` frames the
requests are that one plus one per fired trigger that has a callback. -/
theorem playsound_sources (E : Engine) (cam : VIEW) (fr : ℕ → Frame) (n : ℕ) :
    (main_startup (State.start cam)).trace.drop 21 =
        [Call.pan_remove .pSplash, Call.set .tHelp .SHOW, Call.on_space .Kick,
         Call.ent_playsound (some 1) "tap.wav" 100]
    ∧ sounds (main_startup (State.start cam)).trace = 1
    ∧ (main_startup (State.start cam)).on_space = some Func.Kick
    ∧ (main_startup (State.start cam)).events = [(1, Func.Plop)]
    ∧ (∀ ev : Event, (main_startup (State.start cam)).answers ev
        = decide (ev = Event.key_space ∨ ev = Event.collision_start 1))
    ∧ (∀ (i : Inputs) (s : State), sounds (issued s (loop_body E i s)) = 0)
    ∧ (∀ s : State, sounds (issued s (Kick E s)) = 1 ∧ sounds (issued s (Plop s)) = 1)
    ∧ sounds (frames E fr n (main_startup (State.start cam))).trace
        = 1 + answered (main_startup (State.start cam)) fr n := by
  have hk : (main_startup (State.start cam)).on_space = some Func.Kick := rfl
  have he : (main_startup (State.start cam)).events = [(1, Func.Plop)] := rfl
  have h1 : sounds (main_startup (State.start cam)).trace = 1 := by
    rw [main_startup_trace]; decide
  refine ⟨?_, h1, hk, he, ?_, ?_, ?_, ?_⟩
  · rw [main_startup_trace]; rfl
  · intro ev
    cases ev with
    | key_space => simp [State.answers, hk]
    | collision_start e =>
      simp only [State.answers, he]
      by_cases h : e = 1
      · subst h; simp
      · have hb : (e == 1) = false := by simpa using h
        simp [List.lookup, h, hb]
  · intro i s
    rw [issued_append _ _ _ (loop_body_trace E i s)]; rfl
  · intro s
    rw [issued_append _ _ _ (Kick_trace E s), issued_append _ _ _ (Plop_trace s)]
    exact ⟨rfl, rfl⟩
  · rw [sounds_frames, h1]

/-! ## The concrete engine -/

/-- The table of quarter turns holds the real cosine and sine. -/
lemma quarter_cos_sin_exact (k : ℤ) :
    (((quarter_cos_sin k).1 : ℚ) : ℝ) = Real.cos (k * (Real.pi / 2))
    ∧ (((quarter_cos_sin k).2 : ℚ) : ℝ) = Real.sin (k * (Real.pi / 2)) := by
  obtain ⟨q, r, hr0, hr4, rfl⟩ : ∃ q r : ℤ, 0 ≤ r ∧ r < 4 ∧ k = r + 4 * q :=
    ⟨k / 4, k % 4, Int.emod_nonneg k (by norm_num), Int.emod_lt_of_pos k (by norm_num),
      (Int.emod_add_ediv k 4).symm⟩
  have hm : (r + 4 * q) % 4 = r := by
    rw [Int.add_mul_emod_self_left]; exact Int.emod_eq_of_lt hr0 hr4
  have ha : (((r + 4 * q : ℤ) : ℝ)) * (Real.pi / 2)
      = (r : ℝ) * (Real.pi / 2) + q * (2 * Real.pi) := by
    push_cast; ring
  rw [ha, Real.cos_add_int_mul_two_pi, Real.sin_add_int_mul_two_pi]
  simp only [quarter_cos_sin, hm]
  interval_cases r
  · simp
  · simp
  · have h2 : ((2 : ℤ) : ℝ) * (Real.pi / 2) = Real.pi := by push_cast; ring
    rw [h2]; simp
  · have h3 : ((3 : ℤ) : ℝ) * (Real.pi / 2) = Real.pi / 2 + Real.pi := by push_cast; ring
    rw [h3, Real.cos_add_pi, Real.sin_add_pi]; simp

/-- The model turns a vector about the vertical axis: it keeps the height and the
horizontal length. -/
lemma rotate_yaw_length (v a : VECTOR) :
    (rotate_yaw v a).x ^ 2 + (rotate_yaw v a).y ^ 2 = v.x ^ 2 + v.y ^ 2
    ∧ (rotate_yaw v a).z = v.z := by
  simp only [rotate_yaw, quarter_cos_sin]
  split <;> constructor <;> simp <;> ring

lemma rotate_yaw_pan_0 (v a : VECTOR) (h : a.x = 0) : rotate_yaw v a = v := by
  simp [rotate_yaw, h, quarter_cos_sin]

lemma rotate_yaw_null (a : VECTOR) : rotate_yaw nullvector a = nullvector := by
  simp [rotate_yaw, nullvector]

lemma rotate_yaw_pan_90 (tilt roll : ℚ) :
    rotate_yaw ⟨150, 0, 75⟩ ⟨90, tilt, roll⟩ = ⟨0, 150, 75⟩ := by
  simp [rotate_yaw, quarter_cos_sin]

lemma smooth_null (f : ℚ) : smooth nullvector nullvector f = (nullvector, nullvector) := by
  simp [smooth, nullvector]

/-! ## No input, no drift -/

lemma loop_body_idle (E : Engine)
    (hacc : ∀ f : ℚ, E.vec_accelerate nullvector nullvector f = (nullvector, nullvector))
    (hrot : ∀ a : VECTOR, E.vec_rotate nullvector a = nullvector)
    (s : State) (hS : s.vSpeed = nullvector) (hA : s.vAngularSpeed = nullvector) :
    (loop_body E Inputs.idle s).camera = s.camera
      ∧ (loop_body E Inputs.idle s).vSpeed = nullvector
      ∧ (loop_body E Inputs.idle s).vAngularSpeed = nullvector := by
  obtain ⟨⟨x, y, z, pan, tilt, roll⟩, vS, vA, vF, vM, eB, os, evs, ents, tr⟩ := s
  simp only at hS hA
  subst hS hA
  have h0 : (⟨0, 0, 0⟩ : VECTOR) = nullvector := rfl
  simp [loop_body, loop_update, call_vec_accelerate, call_vec_add, call_vec_rotate,
    State.emit, State.write, State.read, Inputs.idle, h0, hacc, hrot, vec_add,
    VIEW.at_pan, VIEW.at_x, VIEW.set_at_pan, VIEW.set_at_x]
  simp [nullvector]

lemma frame_motion (E : Engine) (f : Frame) (s : State) :
    (frame E f s).camera = (loop_body E f.inputs s).camera
      ∧ (frame E f s).vSpeed = (loop_body E f.inputs s).vSpeed
      ∧ (frame E f s).vAngularSpeed = (loop_body E f.inputs s).vAngularSpeed := by
  have h := data_fields (fired_data E f.fired (loop_body E f.inputs s))
  exact ⟨h.1, h.2.1, h.2.2.1⟩

lemma frames_idle (E : Engine)
    (hacc : ∀ f : ℚ, E.vec_accelerate nullvector nullvector f = (nullvector, nullvector))
    (hrot : ∀ a : VECTOR, E.vec_rotate nullvector a = nullvector)
    (fr : ℕ → Frame) (hidle : ∀ k, (fr k).inputs = Inputs.idle)
    (s : State) (hS : s.vSpeed = nullvector) (hA : s.vAngularSpeed = nullvector) (n : ℕ) :
    (frames E fr n s).camera = s.camera
      ∧ (frames E fr n s).vSpeed = nullvector
      ∧ (frames E fr n s).vAngularSpeed = nullvector := by
  induction n with
  | zero => exact ⟨rfl, hS, hA⟩
  | succ n ih =>
    have hf := frame_motion E (fr n) (frames E fr n s)
    rw [hidle n] at hf
    have hl := loop_body_idle E hacc hrot (frames E fr n s) ih.2.1 ih.2.2
    exact ⟨(hf.1.trans hl.1).trans ih.1, hf.2.1.trans hl.2.1, hf.2.2.trans hl.2.2⟩

/-- Claim C3: no drift without input.  When the loop is entered with `vSpeed` and
`vAngularSpeed` null and every key and mouse reading is 0 in every frame, the
camera position and orientation after 100 iterations, and after every number of
iterations, are those at loop entry.  The engine is any whose integrator yields a
null delta and a null speed from a null speed and a null force, and whose
rotation maps the null vector to itself. -/
theorem idle_camera_fixed (E : Engine)
    (hacc : ∀ f : ℚ, E.vec_accelerate nullvector nullvector f = (nullvector, nullvector))
    (hrot : ∀ a : VECTOR, E.vec_rotate nullvector a = nullvector)
    (fr : ℕ → Frame) (hidle : ∀ k, (fr k).inputs = Inputs.idle)
    (s : State) (hS : s.vSpeed = nullvector) (hA : s.vAngularSpeed = nullvector) :
    (frames E fr 100 s).camera = s.camera ∧ ∀ n : ℕ, (frames E fr n s).camera = s.camera :=
  ⟨(frames_idle E hacc hrot fr hidle s hS hA 100).1,
    fun n => (frames_idle E hacc hrot fr hidle s hS hA n).1⟩

/-- Claim C3 on the concrete engine, from the state in which `main` enters the loop,
one collision of the blob being reported in every frame. -/
theorem idle_camera_fixed_witness :
    (∀ f : ℚ, a8Engine.vec_accelerate nullvector nullvector f = (nullvector, nullvector))
    ∧ (∀ a : VECTOR, a8Engine.vec_rotate nullvector a = nullvector)
    ∧ (main_startup (State.start ⟨0, 0, 0, 0, 0, 0⟩)).vSpeed = nullvector
    ∧ (main_startup (State.start ⟨0, 0, 0, 0, 0, 0⟩)).vAngularSpeed = nullvector
    ∧ (frames a8Engine (fun _ => ⟨Inputs.idle, [Event.collision_start 1]⟩) 100
        (main_startup (State.start ⟨0, 0, 0, 0, 0, 0⟩))).camera = ⟨0, 0, 30, 0, 0, 0⟩ :=
  ⟨smooth_null, rotate_yaw_null, rfl, rfl,
    (idle_camera_fixed a8Engine smooth_null rotate_yaw_null
      (fun _ => ⟨Inputs.idle, [Event.collision_start 1]⟩) (fun _ => rfl)
      (main_startup (State.start ⟨0, 0, 0, 0, 0, 0⟩)) rfl rfl).1⟩

/-! ## The kick -/

lemma kicks_Kick (E : Engine) (s : State) :
    kicks (issued s (Kick E s)) =
      [(s.eBlob, E.vec_rotate ⟨150, 0, 75⟩ ⟨s.camera.pan, s.camera.tilt, s.camera.roll⟩)] := by
  rw [issued_append _ _ _ (Kick_trace E s)]
  rfl

/-- Claim C1: one invocation of `Kick` while the camera heading (pan) is 0 issues
exactly one `pXent_addvelcentral`, on `eBlob`, and the vector passed is
(150, 0, 75).  The engine is any whose `vec_rotate` leaves a vector as it is at
pan 0, as the yaw-only rotation of the spec does. -/
theorem Kick_at_heading_0 (E : Engine)
    (hyaw : ∀ v a : VECTOR, a.x = 0 → E.vec_rotate v a = v) (s : State)
    (hpan : s.camera.pan = 0) :
    issued s (Kick E s) =
        [Call.vec_rotate .vKick (.glob .camera_pan),
         Call.pXent_addvelcentral s.eBlob ⟨150, 0, 75⟩,
         Call.ent_playsound s.eBlob "tap.wav" 100]
    ∧ kicks (issued s (Kick E s)) = [(s.eBlob, ⟨150, 0, 75⟩)] := by
  have hv : E.vec_rotate ⟨150, 0, 75⟩ s.camera.at_pan = ⟨150, 0, 75⟩ := hyaw _ _ hpan
  have ht := Kick_trace E s
  rw [hv] at ht
  have hi := issued_append _ _ _ ht
  refine ⟨hi, ?_⟩
  rw [hi]
  rfl

/-- Claim C1 on the concrete engine, in the state in which `main` enters the loop
when the engine's camera starts with pan 0. -/
theorem Kick_at_heading_0_witness :
    (∀ v a : VECTOR, a.x = 0 → a8Engine.vec_rotate v a = v)
    ∧ (main_startup (State.start ⟨0, 0, 0, 0, 0, 0⟩)).camera.pan = 0
    ∧ kicks (issued (main_startup (State.start ⟨0, 0, 0, 0, 0, 0⟩))
        (Kick a8Engine (main_startup (State.start ⟨0, 0, 0, 0, 0, 0⟩))))
      = [(some 1, ⟨150, 0, 75⟩)] :=
  ⟨rotate_yaw_pan_0, rfl,
    (Kick_at_heading_0 a8Engine rotate_yaw_pan_0
      (main_startup (State.start ⟨0, 0, 0, 0, 0, 0⟩)) rfl).2⟩

/-- The kick vector rotated by yaw 90 and then by yaw 0 is (0, 150, 75), not the
original (150, 0, 75) (against claim C9). -/
theorem yaw_90_then_yaw_0 :
    a8Engine.vec_rotate (a8Engine.vec_rotate ⟨150, 0, 75⟩ ⟨90, 0, 0⟩) ⟨0, 0, 0⟩ = ⟨0, 150, 75⟩
    ∧ a8Engine.vec_rotate (a8Engine.vec_rotate ⟨150, 0, 75⟩ ⟨90, 0, 0⟩) ⟨0, 0, 0⟩
      ≠ ⟨150, 0, 75⟩ := by
  have h : a8Engine.vec_rotate (a8Engine.vec_rotate ⟨150, 0, 75⟩ ⟨90, 0, 0⟩) ⟨0, 0, 0⟩
      = ⟨0, 150, 75⟩ := by
    show rotate_yaw (rotate_yaw ⟨150, 0, 75⟩ ⟨90, 0, 0⟩) ⟨0, 0, 0⟩ = _
    rw [rotate_yaw_pan_0 _ _ rfl, rotate_yaw_pan_90]
  refine ⟨h, ?_⟩
  rw [h]
  decide

/-- Claim C9, amended: for every camera heading θ, rotating the kick vector
(150, 0, 75) by yaw θ, as `Kick` does, and then by yaw 0 reproduces the vector
rotated by yaw θ, because the rotation by yaw 0 is the identity; for θ = 0 this
is the original vector (150, 0, 75).  The engine is any whose `vec_rotate` by the
null angle leaves a vector as it is. -/
theorem yaw_then_yaw_0 (E : Engine)
    (hid : ∀ v : VECTOR, E.vec_rotate v ⟨0, 0, 0⟩ = v) (θ : ℚ) (s : State) :
    E.vec_rotate (E.vec_rotate ⟨150, 0, 75⟩ ⟨θ, 0, 0⟩) ⟨0, 0, 0⟩
      = E.vec_rotate ⟨150, 0, 75⟩ ⟨θ, 0, 0⟩
    ∧ E.vec_rotate (E.vec_rotate ⟨150, 0, 75⟩ ⟨0, 0, 0⟩) ⟨0, 0, 0⟩ = ⟨150, 0, 75⟩
    ∧ (kicks (issued s (Kick E s))).map (fun k => E.vec_rotate k.2 ⟨0, 0, 0⟩)
      = (kicks (issued s (Kick E s))).map Prod.snd := by
  refine ⟨hid _, ?_, ?_⟩
  · rw [hid, hid]
  · rw [kicks_Kick]
    simp [hid]

/-- Claim C9, amended, on the concrete engine at θ = 90: the vector rotated by yaw
90 and then by yaw 0 is the vector rotated by yaw 90, (0, 150, 75). -/
theorem yaw_then_yaw_0_witness :
    (∀ v : VECTOR, a8Engine.vec_rotate v ⟨0, 0, 0⟩ = v)
    ∧ a8Engine.vec_rotate ⟨150, 0, 75⟩ ⟨90, 0, 0⟩ = ⟨0, 150, 75⟩
    ∧ a8Engine.vec_rotate (a8Engine.vec_rotate ⟨150, 0, 75⟩ ⟨90, 0, 0⟩) ⟨0, 0, 0⟩
      = a8Engine.vec_rotate ⟨150, 0, 75⟩ ⟨90, 0, 0⟩ :=
  ⟨fun v => rotate_yaw_pan_0 v _ rfl, rotate_yaw_pan_90 0 0,
    (yaw_then_yaw_0 a8Engine (fun v => rotate_yaw_pan_0 v _ rfl) 90
      (main_startup (State.start ⟨0, 0, 0, 90, 0, 0⟩))).1⟩

/-! ## Decay of the angular speed at zero force -/

lemma loop_body_angular (E : Engine)
    (hacc : ∀ v : VECTOR, E.vec_accelerate v nullvector 0.8 = smooth v nullvector 0.8)
    (i : Inputs) (hx : i.key_force_x + i.mouse_force_x = 0)
    (hy : i.key_force_y + i.mouse_force_y = 0) (s : State) :
    (loop_body E i s).vAngularSpeed
        = ⟨4 / 5 * s.vAngularSpeed.x, 4 / 5 * s.vAngularSpeed.y, 4 / 5 * s.vAngularSpeed.z⟩
      ∧ (loop_body E i s).camera.pan = s.camera.pan + 4 / 5 * s.vAngularSpeed.x
      ∧ (loop_body E i s).camera.tilt = s.camera.tilt + 4 / 5 * s.vAngularSpeed.y
      ∧ (loop_body E i s).camera.roll = s.camera.roll + 4 / 5 * s.vAngularSpeed.z := by
  have h0 : (⟨-5 * (i.key_force_x + i.mouse_force_x), 5 * (i.key_force_y + i.mouse_force_y), 0⟩
      : VECTOR) = nullvector := by
    rw [hx, hy]; simp [nullvector]
  have hs : E.vec_accelerate s.vAngularSpeed
      ⟨-5 * (i.key_force_x + i.mouse_force_x), 5 * (i.key_force_y + i.mouse_force_y), 0⟩ 0.8
      = (⟨4 / 5 * s.vAngularSpeed.x, 4 / 5 * s.vAngularSpeed.y, 4 / 5 * s.vAngularSpeed.z⟩,
         ⟨4 / 5 * s.vAngularSpeed.x, 4 / 5 * s.vAngularSpeed.y, 4 / 5 * s.vAngularSpeed.z⟩) := by
    rw [h0, hacc]
    norm_num [smooth, nullvector]
  have hA : (loop_body E i s).vAngularSpeed = (E.vec_accelerate s.vAngularSpeed
      ⟨-5 * (i.key_force_x + i.mouse_force_x), 5 * (i.key_force_y + i.mouse_force_y), 0⟩ 0.8).2 :=
    rfl
  have hC : (loop_body E i s).camera.at_pan = vec_add s.camera.at_pan (E.vec_accelerate
      s.vAngularSpeed
      ⟨-5 * (i.key_force_x + i.mouse_force_x), 5 * (i.key_force_y + i.mouse_force_y), 0⟩ 0.8).1 :=
    rfl
  rw [hs] at hA hC
  refine ⟨hA, ?_, ?_, ?_⟩
  · exact congrArg VECTOR.x hC
  · exact congrArg VECTOR.y hC
  · exact congrArg VECTOR.z hC

lemma frames_angular (E : Engine)
    (hacc : ∀ v : VECTOR, E.vec_accelerate v nullvector 0.8 = smooth v nullvector 0.8)
    (fr : ℕ → Frame)
    (hzero : ∀ k, (fr k).inputs.key_force_x + (fr k).inputs.mouse_force_x = 0
      ∧ (fr k).inputs.key_force_y + (fr k).inputs.mouse_force_y = 0)
    (s : State) (n : ℕ) :
    (frames E fr n s).vAngularSpeed
        = ⟨(4 / 5) ^ n * s.vAngularSpeed.x, (4 / 5) ^ n * s.vAngularSpeed.y,
           (4 / 5) ^ n * s.vAngularSpeed.z⟩
      ∧ (frames E fr n s).camera.pan = s.camera.pan + 4 * (1 - (4 / 5) ^ n) * s.vAngularSpeed.x
      ∧ (frames E fr n s).camera.tilt = s.camera.tilt + 4 * (1 - (4 / 5) ^ n) * s.vAngularSpeed.y
      ∧ (frames E fr n s).camera.roll
          = s.camera.roll + 4 * (1 - (4 / 5) ^ n) * s.vAngularSpeed.z := by
  induction n with
  | zero => simp [frames]
  | succ n ih =>
    have hf := frame_motion E (fr n) (frames E fr n s)
    have hl := loop_body_angular E hacc (fr n).inputs (hzero n).1 (hzero n).2 (frames E fr n s)
    have hcam : (frames E fr (n + 1) s).camera
        = (loop_body E (fr n).inputs (frames E fr n s)).camera := hf.1
    have hv : (frames E fr (n + 1) s).vAngularSpeed
        = (loop_body E (fr n).inputs (frames E fr n s)).vAngularSpeed := hf.2.2
    rw [hcam, hv, hl.1, hl.2.1, hl.2.2.1, hl.2.2.2, ih.1, ih.2.1, ih.2.2.1, ih.2.2.2]
    refine ⟨?_, ?_, ?_, ?_⟩
    · simp only [VECTOR.mk.injEq]
      refine ⟨?_, ?_, ?_⟩ <;> ring
    · ring
    · ring
    · ring

lemma decay_pow_le (ε : ℝ) (hε : 0 < ε) (n : ℕ)
    (hn : ⌈Real.log ε / Real.log 0.8⌉₊ ≤ n) : (0.8 : ℝ) ^ n ≤ ε := by
  have hlog : Real.log 0.8 < 0 := Real.log_neg (by norm_num) (by norm_num)
  have hx : Real.log ε / Real.log 0.8 ≤ n := (Nat.le_ceil _).trans (by exact_mod_cast hn)
  have h1 : (n : ℝ) * Real.log 0.8 ≤ Real.log ε := by
    rwa [div_le_iff_of_neg hlog] at hx
  have h2 : Real.log ((0.8 : ℝ) ^ n) ≤ Real.log ε := by
    rw [Real.log_pow]; exact h1
  exact (Real.log_le_log_iff (by positivity) hε).1 h2

lemma decay_lt (ε : ℝ) (hε : 0 < ε) (a : ℚ) (ha : |(a : ℝ)| < 1) (n : ℕ)
    (hn : ⌈Real.log ε / Real.log 0.8⌉₊ ≤ n) : |(((4 / 5) ^ n * a : ℚ) : ℝ)| < ε := by
  have hp : (0 : ℝ) < 0.8 ^ n := by positivity
  have hc : (((4 / 5) ^ n * a : ℚ) : ℝ) = (0.8 : ℝ) ^ n * (a : ℝ) := by
    push_cast; norm_num
  rw [hc, abs_mul, abs_of_pos hp]
  calc (0.8 : ℝ) ^ n * |(a : ℝ)| < 0.8 ^ n * 1 := mul_lt_mul_of_pos_left ha hp
    _ = 0.8 ^ n := mul_one _
    _ ≤ ε := decay_pow_le ε hε n hn

lemma ceil_log_half : ⌈Real.log (1 / 2) / Real.log 0.8⌉₊ = 4 := by
  have hlog : Real.log 0.8 < 0 := Real.log_neg (by norm_num) (by norm_num)
  rw [Nat.ceil_eq_iff (by norm_num)]
  constructor
  · rw [lt_div_iff_of_neg hlog]
    have h3 : ((4 - 1 : ℕ) : ℝ) * Real.log 0.8 = Real.log (0.8 ^ 3) := by
      rw [Real.log_pow]
    rw [h3]
    exact Real.log_lt_log (by norm_num) (by norm_num)
  · rw [div_le_iff_of_neg hlog]
    have h4 : ((4 : ℕ) : ℝ) * Real.log 0.8 = Real.log (0.8 ^ 4) := by
      rw [Real.log_pow]
    rw [h4]
    exact Real.log_le_log (by norm_num) (by norm_num)

lemma tendsto_angle (p v : ℚ) :
    Filter.Tendsto (fun n : ℕ => ((p + 4 * (1 - (4 / 5) ^ n) * v : ℚ) : ℝ)) Filter.atTop
      (nhds ((p + 4 * v : ℚ) : ℝ)) := by
  have h := tendsto_pow_atTop_nhds_zero_of_lt_one (show (0 : ℝ) ≤ 4 / 5 by norm_num)
    (show (4 / 5 : ℝ) < 1 by norm_num)
  have h2 : Filter.Tendsto (fun n : ℕ => (p : ℝ) + 4 * (1 - (4 / 5 : ℝ) ^ n) * (v : ℝ))
      Filter.atTop (nhds ((p : ℝ) + 4 * (1 - 0) * (v : ℝ))) :=
    ((h.const_sub 1).const_mul 4 |>.mul_const (v : ℝ)).const_add (p : ℝ)
  have h3 : (fun n : ℕ => ((p + 4 * (1 - (4 / 5) ^ n) * v : ℚ) : ℝ))
      = fun n : ℕ => (p : ℝ) + 4 * (1 - (4 / 5 : ℝ) ^ n) * (v : ℝ) := by
    funext n; push_cast; ring
  rw [h3]
  simpa using h2

/-- With `vAngularSpeed` = (10, 0, 0) and zero force, after
`ceil(log(1/2)/log(0.8))` = 4 iterations the pan speed is 512/125, which is not
below ε = 1/2 (against claim C8). -/
theorem decay_bound_fails :
    ⌈Real.log (1 / 2) / Real.log 0.8⌉₊ = 4
    ∧ (frames a8Engine idle_frames 4 spinning).vAngularSpeed = ⟨512 / 125, 0, 0⟩
    ∧ ¬ |(((frames a8Engine idle_frames ⌈Real.log (1 / 2) / Real.log 0.8⌉₊
          spinning).vAngularSpeed.x : ℚ) : ℝ)| < 1 / 2 := by
  have h4 : (frames a8Engine idle_frames 4 spinning).vAngularSpeed = ⟨512 / 125, 0, 0⟩ := by
    rw [(frames_angular a8Engine (fun _ => rfl) idle_frames
      (fun _ => ⟨by norm_num [idle_frames, Inputs.idle], by norm_num [idle_frames, Inputs.idle]⟩)
      spinning 4).1]
    norm_num [spinning]
  refine ⟨ceil_log_half, h4, ?_⟩
  rw [ceil_log_half, h4]
  norm_num [abs_of_pos]

/-- Claim C8, amended: at zero force the integrator with factor 0.8 multiplies
the angular speed by 0.8 per iteration, for every starting value: after `n`
iterations it is 0.8 ^ n times the starting value.  For every ε > 0 and every
starting value whose components have magnitude below 1, every component has
magnitude below ε after `ceil(log(ε)/log(0.8))` iterations, and after any
larger number.  The camera orientation converges, to the orientation at the start
plus 4 times the starting angular speed. -/
theorem angular_speed_decay (E : Engine)
    (hacc : ∀ v : VECTOR, E.vec_accelerate v nullvector 0.8 = smooth v nullvector 0.8)
    (fr : ℕ → Frame)
    (hzero : ∀ k, (fr k).inputs.key_force_x + (fr k).inputs.mouse_force_x = 0
      ∧ (fr k).inputs.key_force_y + (fr k).inputs.mouse_force_y = 0)
    (s : State) :
    (∀ n : ℕ, (frames E fr n s).vAngularSpeed
        = ⟨0.8 ^ n * s.vAngularSpeed.x, 0.8 ^ n * s.vAngularSpeed.y,
           0.8 ^ n * s.vAngularSpeed.z⟩)
    ∧ (∀ ε : ℝ, 0 < ε → |(s.vAngularSpeed.x : ℝ)| < 1 → |(s.vAngularSpeed.y : ℝ)| < 1 →
        |(s.vAngularSpeed.z : ℝ)| < 1 →
        ∀ n : ℕ, ⌈Real.log ε / Real.log 0.8⌉₊ ≤ n →
          |(((frames E fr n s).vAngularSpeed.x : ℚ) : ℝ)| < ε
          ∧ |(((frames E fr n s).vAngularSpeed.y : ℚ) : ℝ)| < ε
          ∧ |(((frames E fr n s).vAngularSpeed.z : ℚ) : ℝ)| < ε)
    ∧ Filter.Tendsto (fun n : ℕ => (((frames E fr n s).camera.pan : ℚ) : ℝ)) Filter.atTop
        (nhds ((s.camera.pan + 4 * s.vAngularSpeed.x : ℚ) : ℝ))
    ∧ Filter.Tendsto (fun n : ℕ => (((frames E fr n s).camera.tilt : ℚ) : ℝ)) Filter.atTop
        (nhds ((s.camera.tilt + 4 * s.vAngularSpeed.y : ℚ) : ℝ))
    ∧ Filter.Tendsto (fun n : ℕ => (((frames E fr n s).camera.roll : ℚ) : ℝ)) Filter.atTop
        (nhds ((s.camera.roll + 4 * s.vAngularSpeed.z : ℚ) : ℝ)) := by
  have hcl := frames_angular E hacc fr hzero s
  refine ⟨?_, ?_, ?_, ?_, ?_⟩
  · intro n
    rw [(hcl n).1]
    norm_num
  · intro ε hε hx hy hz n hn
    rw [(hcl n).1]
    exact ⟨decay_lt ε hε _ hx n hn, decay_lt ε hε _ hy n hn, decay_lt ε hε _ hz n hn⟩
  · simp only [fun n => (hcl n).2.1]
    exact tendsto_angle _ _
  · simp only [fun n => (hcl n).2.2.1]
    exact tendsto_angle _ _
  · simp only [fun n => (hcl n).2.2.2]
    exact tendsto_angle _ _

/-- Claim C8, amended, on the concrete engine without input: from the angular
speed (1/2, 0, 0) and ε = 1/2, after 4 iterations the pan speed is below 1/2. -/
theorem angular_speed_decay_witness :
    (∀ v : VECTOR, a8Engine.vec_accelerate v nullvector 0.8 = smooth v nullvector 0.8)
    ∧ (∀ k, (idle_frames k).inputs.key_force_x + (idle_frames k).inputs.mouse_force_x = 0
      ∧ (idle_frames k).inputs.key_force_y + (idle_frames k).inputs.mouse_force_y = 0)
    ∧ (0 : ℝ) < 1 / 2
    ∧ |((turning.vAngularSpeed.x : ℚ) : ℝ)| < 1
    ∧ ⌈Real.log (1 / 2) / Real.log 0.8⌉₊ ≤ 4
    ∧ |(((frames a8Engine idle_frames 4 turning).vAngularSpeed.x : ℚ) : ℝ)| < 1 / 2 := by
  have hacc : ∀ v : VECTOR, a8Engine.vec_accelerate v nullvector 0.8 = smooth v nullvector 0.8 :=
    fun _ => rfl
  have hzero : ∀ k, (idle_frames k).inputs.key_force_x + (idle_frames k).inputs.mouse_force_x = 0
      ∧ (idle_frames k).inputs.key_force_y + (idle_frames k).inputs.mouse_force_y = 0 :=
    fun _ => ⟨by norm_num [idle_frames, Inputs.idle], by norm_num [idle_frames, Inputs.idle]⟩
  have hx : |((turning.vAngularSpeed.x : ℚ) : ℝ)| < 1 := by
    norm_num [turning, abs_of_pos]
  have hy : |((turning.vAngularSpeed.y : ℚ) : ℝ)| < 1 := by norm_num [turning]
  have hz : |((turning.vAngularSpeed.z : ℚ) : ℝ)| < 1 := by norm_num [turning]
  exact ⟨hacc, hzero, by norm_num, hx, ceil_log_half.le,
    ((angular_speed_decay a8Engine hacc idle_frames hzero turning).2.1 (1 / 2) (by norm_num)
      hx hy hz 4 ceil_log_half.le).1⟩

end Earthball
